import Mathlib

/-!
Shallow embedding of `src/lib/k8s.ts` from the iac-gke repository:
the manifest materializer `resourcesFromSpecs`, its per-kind dispatch
`createSpecResource`, and the identifier derivation `specResourceName`.

Specs are untyped (`any`) in the source; a spec value may be `null` or
`undefined`, fields may be absent, and the source tests fields with
JavaScript truthiness (absent and `""` are both falsy).  We embed a spec
as `Option K8sSpecData` with `Option String` fields, and truthiness as
`strTruthy`.
-/

namespace IacGke

/-- Metadata block of a Kubernetes spec.  `nspace` embeds the source field
`metadata.namespace` (`namespace` is a Lean keyword). -/
structure K8sMeta where
  name : Option String
  nspace : Option String
deriving DecidableEq, Repr

/-- Body of a Kubernetes spec: the fields the materializer reads. -/
structure K8sSpecData where
  kind : Option String
  apiVersion : Option String
  metadata : Option K8sMeta
deriving DecidableEq, Repr

/-- A spec value (`any` in the source): possibly `null`/`undefined`. -/
abbrev K8sSpec := Option K8sSpecData

/-- JavaScript truthiness of an optional string field:
absent (`undefined`) and the empty string are falsy. -/
def strTruthy : Option String → Bool
  | none => false
  | some s => s ≠ ""

/-- Embeds `String.prototype.toLowerCase()`: lower-case the string one
character at a time. -/
def strToLower (s : String) : String :=
  ⟨s.data.map Char.toLower⟩

/-- Embeds the optional-chaining read `s?.kind`. -/
def specKind (s : K8sSpec) : Option String :=
  match s with
  | none => none
  | some d => d.kind

/-- Embeds the optional-chaining read `s?.metadata?.name`. -/
def metaName (s : K8sSpec) : Option String :=
  match s with
  | none => none
  | some d =>
    match d.metadata with
    | none => none
    | some m => m.name

/-- Embeds the optional-chaining read `s?.metadata?.namespace`. -/
def metaNamespace (s : K8sSpec) : Option String :=
  match s with
  | none => none
  | some d =>
    match d.metadata with
    | none => none
    | some m => m.nspace

/-- Embeds `specResourceName` from `src/lib/k8s.ts`: `undefined` when
`spec?.kind` or `spec?.metadata?.name` is falsy, otherwise the parts
`["k8s", kind.toLowerCase()]`, then the namespace when the lowercased
kind is not `"namespace"` and `spec.metadata?.namespace` is truthy,
then the name, joined with `"/"`. -/
def specResourceName (spec : K8sSpec) : Option String :=
  match specKind spec, metaName spec with
  | some k, some n =>
    if k = "" ∨ n = "" then none
    else
      let kind := strToLower k
      let nsParts : List String :=
        match metaNamespace spec with
        | some ns => if kind ≠ "namespace" ∧ ns ≠ "" then [ns] else []
        | none => []
      some (String.intercalate "/" (["k8s", kind] ++ nsParts ++ [n]))
  | _, _ => none

/-- The concrete resource constructors reachable from the dispatch chain in
`createSpecResource`, one per `new k8s....(...)` call site. -/
inductive ResourceCtor where
  | coreConfigMap
  | coreNamespace
  | coreSecret
  | coreService
  | coreServiceAccount
  | appsDaemonSet
  | appsDeployment
  | appsStatefulSet
  | batchJob
  | batchCronJob
  | policyPodDisruptionBudget
  | policyPodSecurityPolicy
  | networkingNetworkPolicy
  | networkingIngress
  | rbacClusterRole
  | rbacClusterRoleBinding
  | rbacRole
  | rbacRoleBinding
  | admissionregMutatingV1beta1
  | admissionregMutatingV1
  | admissionregValidatingV1beta1
  | admissionregValidatingV1
  | apiextensionsCRDV1beta1
  | apiextensionsCRDV1
  | customResource
deriving DecidableEq, Repr

/-- Embeds the `if`/`else if` chain of `createSpecResource` that selects
a constructor from `spec.kind` (and, for the three ambiguous kinds,
`spec.apiVersion`); the final `else` is the generic custom-resource
fallback. -/
def dispatchCtor (d : K8sSpecData) : ResourceCtor :=
  if d.kind = some "ConfigMap" then .coreConfigMap
  else if d.kind = some "Namespace" then .coreNamespace
  else if d.kind = some "Secret" then .coreSecret
  else if d.kind = some "Service" then .coreService
  else if d.kind = some "ServiceAccount" then .coreServiceAccount
  else if d.kind = some "DaemonSet" then .appsDaemonSet
  else if d.kind = some "Deployment" then .appsDeployment
  else if d.kind = some "StatefulSet" then .appsStatefulSet
  else if d.kind = some "Job" then .batchJob
  else if d.kind = some "CronJob" then .batchCronJob
  else if d.kind = some "PodDisruptionBudget" then .policyPodDisruptionBudget
  else if d.kind = some "PodSecurityPolicy" then .policyPodSecurityPolicy
  else if d.kind = some "NetworkPolicy" then .networkingNetworkPolicy
  else if d.kind = some "Ingress" then .networkingIngress
  else if d.kind = some "ClusterRole" then .rbacClusterRole
  else if d.kind = some "ClusterRoleBinding" then .rbacClusterRoleBinding
  else if d.kind = some "Role" then .rbacRole
  else if d.kind = some "RoleBinding" then .rbacRoleBinding
  else if d.kind = some "MutatingWebhookConfiguration" then
    (if d.apiVersion = some "admissionregistration.k8s.io/v1beta1" then
      .admissionregMutatingV1beta1
    else
      .admissionregMutatingV1)
  else if d.kind = some "ValidatingWebhookConfiguration" then
    (if d.apiVersion = some "admissionregistration.k8s.io/v1beta1" then
      .admissionregValidatingV1beta1
    else
      .admissionregValidatingV1)
  else if d.kind = some "CustomResourceDefinition" then
    (if d.apiVersion = some "apiextensions.k8s.io/v1beta1" then
      .apiextensionsCRDV1beta1
    else
      .apiextensionsCRDV1)
  else .customResource

/-- A created resource handle: which constructor ran, the derived resource
name passed as its first argument, and the spec passed as its second. -/
structure Resource where
  ctor : ResourceCtor
  resName : String
  spec : K8sSpecData
deriving DecidableEq, Repr

/-- Embeds `{ provider } & pulumi.CustomResourceOptions`: the provider is
opaque, `dependsOn` is the dependency list, and `other` stands for every
remaining creation setting the spread `{ ...args.options }` copies. -/
structure Options where
  provider : Nat
  dependsOn : Option (List Resource)
  other : Nat
deriving DecidableEq, Repr

/-- A creation registered with the provisioning engine: the handle together
with the options value it was created under. -/
structure Creation where
  res : Resource
  opts : Options
deriving DecidableEq, Repr

/-- Embeds `createSpecResource`: `undefined` when `specResourceName` is
falsy, otherwise exactly one resource built by the dispatched constructor
with the derived name, the spec, and the given options. -/
def createSpecResource (spec : K8sSpec) (opts : Options) : Option Creation :=
  match specResourceName spec, spec with
  | some resource, some d =>
    some { res := { ctor := dispatchCtor d, resName := resource, spec := d }, opts := opts }
  | _, _ => none

/-- Embeds `ResourcesFromSpecsArgs`. -/
structure ResourcesFromSpecsArgs where
  options : Options
  specs : List K8sSpec
  transform : Option (K8sSpec → K8sSpec)

/-- The predicate of the first filter in `resourcesFromSpecs`:
`s?.kind === "CustomResourceDefinition" || s?.kind === "Namespace"`. -/
def firstFilter (s : K8sSpec) : Bool :=
  specKind s == some "CustomResourceDefinition" || specKind s == some "Namespace"

/-- The predicate of the second filter in `resourcesFromSpecs`:
`s?.kind !== "CustomResourceDefinition" && s?.kind !== "Namespace"`. -/
def restFilter (s : K8sSpec) : Bool :=
  !(specKind s == some "CustomResourceDefinition") &&
    !(specKind s == some "Namespace")

/-- Embeds the body of `resourcesFromSpecs`, keeping each intermediate:
the tier-1 creations, the options used for tier 2 (the spread copy of
`args.options`, with `dependsOn` set to the tier-1 handles when there is
at least one), and the tier-2 creations. -/
def resourcesFromSpecsPipeline (args : ResourcesFromSpecsArgs) :
    List Creation × Options × List Creation :=
  let transform := args.transform.getD (fun i => i)
  let first := ((args.specs.filter firstFilter).map transform).filterMap
    (fun s => createSpecResource s args.options)
  let firstRes := first.map Creation.res
  let opts :=
    if 0 < firstRes.length then
      { args.options with dependsOn := some firstRes }
    else
      args.options
  let rest := ((args.specs.filter restFilter).map transform).filterMap
    (fun s => createSpecResource s opts)
  (first, opts, rest)

/-- Tier-1 creations of a `resourcesFromSpecs` run. -/
def firstCreations (args : ResourcesFromSpecsArgs) : List Creation :=
  (resourcesFromSpecsPipeline args).1

/-- The options value every tier-2 spec is materialized under. -/
def restOptions (args : ResourcesFromSpecsArgs) : Options :=
  (resourcesFromSpecsPipeline args).2.1

/-- Tier-2 creations of a `resourcesFromSpecs` run. -/
def restCreations (args : ResourcesFromSpecsArgs) : List Creation :=
  (resourcesFromSpecsPipeline args).2.2

/-- Embeds `resourcesFromSpecs`: the returned array `[...first, ...rest]`. -/
def resourcesFromSpecs (args : ResourcesFromSpecsArgs) : List Resource :=
  (firstCreations args).map Creation.res ++ (restCreations args).map Creation.res

/-- Tier-1 resource handles of a run (the value assigned to `dependsOn`). -/
def firstResources (args : ResourcesFromSpecsArgs) : List Resource :=
  (firstCreations args).map Creation.res

/-- Truthiness of both identity fields, the condition under which
`specResourceName` (and hence materialization) succeeds. -/
def hasKindAndName (s : K8sSpec) : Bool :=
  strTruthy (specKind s) && strTruthy (metaName s)

/-- The kinds that appear in the fixed dispatch mapping (every branch of
the chain except the generic fallback). -/
def recognizedKind (k : Option String) : Bool :=
  k == some "ConfigMap" || k == some "Namespace" || k == some "Secret" ||
  k == some "Service" || k == some "ServiceAccount" || k == some "DaemonSet" ||
  k == some "Deployment" || k == some "StatefulSet" || k == some "Job" ||
  k == some "CronJob" || k == some "PodDisruptionBudget" ||
  k == some "PodSecurityPolicy" || k == some "NetworkPolicy" ||
  k == some "Ingress" || k == some "ClusterRole" ||
  k == some "ClusterRoleBinding" || k == some "Role" ||
  k == some "RoleBinding" || k == some "MutatingWebhookConfiguration" ||
  k == some "ValidatingWebhookConfiguration" ||
  k == some "CustomResourceDefinition"

/-- Concrete namespace spec used in the worked examples. -/
def nsSpec : K8sSpec := some ⟨some "Namespace", some "v1", some ⟨some "ns1", none⟩⟩

/-- Concrete deployment spec used in the worked examples. -/
def depSpec : K8sSpec :=
  some ⟨some "Deployment", some "apps/v1", some ⟨some "web", some "ns1"⟩⟩

/-- Concrete caller options without pre-set dependency markers. -/
def o0 : Options := ⟨7, none, 3⟩

/-- Concrete arguments: a namespace, then a deployment, no transform. -/
def argsEx : ResourcesFromSpecsArgs := ⟨o0, [nsSpec, depSpec], none⟩

/-- The handle the namespace spec of `argsEx` materializes to. -/
def nsResourceEx : Resource :=
  ⟨.coreNamespace, "k8s/namespace/ns1", ⟨some "Namespace", some "v1", some ⟨some "ns1", none⟩⟩⟩

/-- The tier-1 creation of `argsEx`. -/
def nsCreationEx : Creation := ⟨nsResourceEx, o0⟩

/-- The tier-2 creation of `argsEx`: the deployment, created under the
options whose `dependsOn` is the tier-1 handle list. -/
def depCreationEx : Creation :=
  ⟨⟨.appsDeployment, "k8s/deployment/ns1/web",
      ⟨some "Deployment", some "apps/v1", some ⟨some "web", some "ns1"⟩⟩⟩,
    ⟨7, some [nsResourceEx], 3⟩⟩

/-- A pre-existing dependency marker supplied by the caller. -/
def preRes : Resource :=
  ⟨.customResource, "k8s/widget/pre", ⟨some "Widget", none, some ⟨some "pre", none⟩⟩⟩

/-- Concrete arguments whose caller options already carry a dependency
marker (`dependsOn = [preRes]`). -/
def argsC1 : ResourcesFromSpecsArgs := ⟨⟨7, some [preRes], 3⟩, [nsSpec, depSpec], none⟩

/-- A spec of an unrecognized kind with valid metadata. -/
def widgetSpec : K8sSpec :=
  some ⟨some "Widget", some "example.com/v1", some ⟨some "w", none⟩⟩

/-- The creation the widget spec produces under `o0`, via the generic
custom-resource fallback. -/
def widgetCreationEx : Creation :=
  ⟨⟨.customResource, "k8s/widget/w", ⟨some "Widget", some "example.com/v1", some ⟨some "w", none⟩⟩⟩, o0⟩

/-- Concrete arguments whose single input spec lacks `kind` and
`metadata`, with a transform that rewrites it into a complete spec. -/
def argsC4 : ResourcesFromSpecsArgs :=
  ⟨o0, [some ⟨none, none, none⟩], some (fun _ => widgetSpec)⟩

/-- A transform returning the omission marker exactly on `depSpec`. -/
def trOmit : K8sSpec → K8sSpec := fun x => if x = depSpec then none else x

/-- A mutating-webhook spec tagged with the v1beta1 apiVersion. -/
def mutSpecData : K8sSpecData :=
  ⟨some "MutatingWebhookConfiguration", some "admissionregistration.k8s.io/v1beta1",
    some ⟨some "m", none⟩⟩

/-- A config-map spec body, used to show `apiVersion` is ignored for
kinds outside the three ambiguous ones. -/
def cmSpecData : K8sSpecData := ⟨some "ConfigMap", some "v1", some ⟨some "cm", none⟩⟩

theorem createSpecResource_none (o : Options) : createSpecResource none o = none := rfl

theorem createSpecResource_opts_eq {s : K8sSpec} {o : Options} {c : Creation}
    (h : createSpecResource s o = some c) : c.opts = o := by
  unfold createSpecResource at h
  rcases s with _ | d
  · cases hn : specResourceName none <;> simp [hn] at h
  · cases hn : specResourceName (some d) with
    | none => simp [hn] at h
    | some r =>
      simp only [hn] at h
      cases h
      rfl

theorem specResourceName_isSome (s : K8sSpec) :
    (specResourceName s).isSome = hasKindAndName s := by
  rcases s with _ | ⟨k, av, m⟩
  · rfl
  rcases k with _ | k
  · rfl
  rcases m with _ | ⟨n, ns⟩
  · simp [specResourceName, hasKindAndName, specKind, metaName, strTruthy]
  rcases n with _ | n
  · simp [specResourceName, hasKindAndName, specKind, metaName, strTruthy]
  by_cases hk : k = "" <;> by_cases hn : n = "" <;>
    simp [specResourceName, hasKindAndName, specKind, metaName, strTruthy, hk, hn]

theorem createSpecResource_isSome (s : K8sSpec) (o : Options) :
    (createSpecResource s o).isSome = hasKindAndName s := by
  rw [← specResourceName_isSome]
  unfold createSpecResource
  rcases s with _ | d
  · cases hn : specResourceName none with
    | none => simp [hn]
    | some r => rw [show specResourceName none = none from rfl] at hn; cases hn
  · cases hn : specResourceName (some d) <;> simp [hn]

theorem dispatchCtor_fallback (d : K8sSpecData)
    (h : recognizedKind d.kind = false) : dispatchCtor d = ResourceCtor.customResource := by
  simp only [recognizedKind, Bool.or_eq_false_iff, beq_eq_false_iff_ne, ne_eq] at h
  simp [dispatchCtor, h.1, h.2]

theorem intercalate_three (a b c : String) :
    String.intercalate "/" [a, b, c] = a ++ "/" ++ b ++ "/" ++ c := by
  simp [String.intercalate, String.intercalate.go]

theorem intercalate_four (a b c d : String) :
    String.intercalate "/" [a, b, c, d] = a ++ "/" ++ b ++ "/" ++ c ++ "/" ++ d := by
  simp [String.intercalate, String.intercalate.go]

theorem specResourceName_cases (k n : String) (av : Option String)
    (hk : k ≠ "") (hn : n ≠ "") :
    (∀ v : String, strToLower k ≠ "namespace" → v ≠ "" →
        specResourceName (some ⟨some k, av, some ⟨some n, some v⟩⟩) =
          some ("k8s" ++ "/" ++ strToLower k ++ "/" ++ v ++ "/" ++ n)) ∧
    (∀ v : Option String, strToLower k = "namespace" ∨ v = some "" ∨ v = none →
        specResourceName (some ⟨some k, av, some ⟨some n, v⟩⟩) =
          some ("k8s" ++ "/" ++ strToLower k ++ "/" ++ n)) := by
  constructor
  · intro v hkn hv
    simp [specResourceName, specKind, metaName, metaNamespace, hk, hn, hkn, hv,
      intercalate_four]
  · intro v hcase
    rcases hcase with hkn | hv | hv
    · rcases v with _ | v
      · simp [specResourceName, specKind, metaName, metaNamespace, hk, hn, intercalate_three]
      · simp [specResourceName, specKind, metaName, metaNamespace, hk, hn, hkn,
          intercalate_three]
    · subst hv
      simp [specResourceName, specKind, metaName, metaNamespace, hk, hn, intercalate_three]
    · subst hv
      simp [specResourceName, specKind, metaName, metaNamespace, hk, hn, intercalate_three]

theorem strLength_ne_zero {v : String} (hv : v ≠ "") : v.length ≠ 0 :=
  fun h0 => hv (String.ext (List.length_eq_zero.mp h0))

theorem long_ne_short (K v n : String) (hv : v ≠ "") :
    ("k8s" ++ "/" ++ K ++ "/" ++ v ++ "/" ++ n) ≠ ("k8s" ++ "/" ++ K ++ "/" ++ n) := by
  intro h
  have hlen := congrArg String.length h
  simp only [String.length_append] at hlen
  have hv0 := strLength_ne_zero hv
  omega

theorem long_inj (K v₁ v₂ n : String)
    (h : "k8s" ++ "/" ++ K ++ "/" ++ v₁ ++ "/" ++ n =
      "k8s" ++ "/" ++ K ++ "/" ++ v₂ ++ "/" ++ n) : v₁ = v₂ := by
  apply String.ext
  have hd := congrArg String.data h
  simp only [String.data_append, List.append_assoc] at hd
  have h1 := List.append_cancel_left hd
  have h2 := List.append_cancel_left h1
  have h3 := List.append_cancel_left h2
  have h4 := List.append_cancel_left h3
  exact List.append_cancel_right h4

theorem restFilter_eq_not_firstFilter (s : K8sSpec) : restFilter s = !(firstFilter s) := by
  simp [restFilter, firstFilter, Bool.not_or]

theorem restOptions_eq (args : ResourcesFromSpecsArgs) :
    restOptions args =
      if 0 < (firstResources args).length then
        { args.options with dependsOn := some (firstResources args) }
      else args.options := rfl

theorem firstCreations_opts (args : ResourcesFromSpecsArgs) (c : Creation)
    (hc : c ∈ firstCreations args) : c.opts = args.options := by
  unfold firstCreations resourcesFromSpecsPipeline at hc
  dsimp only at hc
  obtain ⟨s, _, hcs⟩ := List.mem_filterMap.mp hc
  exact createSpecResource_opts_eq hcs

theorem restCreations_opts (args : ResourcesFromSpecsArgs) (c : Creation)
    (hc : c ∈ restCreations args) : c.opts = restOptions args := by
  unfold restCreations resourcesFromSpecsPipeline at hc
  dsimp only at hc
  obtain ⟨s, _, hcs⟩ := List.mem_filterMap.mp hc
  exact (createSpecResource_opts_eq hcs).trans rfl

theorem filterMap_create_length (tr : K8sSpec → K8sSpec) (o : Options) (l : List K8sSpec) :
    ((l.map tr).filterMap (fun s => createSpecResource s o)).length
      = (l.filter (fun s => hasKindAndName (tr s))).length := by
  induction l with
  | nil => rfl
  | cons s t ih =>
    simp only [List.map_cons, List.filterMap_cons, List.filter_cons]
    cases hcs : createSpecResource (tr s) o with
    | none =>
      have hkn : hasKindAndName (tr s) = false := by
        have h := createSpecResource_isSome (tr s) o
        rw [hcs] at h
        simpa using h.symm
      simp only [List.filterMap_map] at ih
      simp [hcs, hkn, List.filterMap_map, ih]
    | some c =>
      have hkn : hasKindAndName (tr s) = true := by
        have h := createSpecResource_isSome (tr s) o
        rw [hcs] at h
        simpa using h.symm
      simp only [List.filterMap_map] at ih
      simp [hcs, hkn, List.filterMap_map, ih]

theorem length_filter_partition (p F : K8sSpec → Bool) (l : List K8sSpec) :
    ((l.filter F).filter p).length + ((l.filter (fun s => !(F s))).filter p).length
      = (l.filter p).length := by
  induction l with
  | nil => rfl
  | cons s t ih =>
    simp only [List.filter_filter] at ih ⊢
    simp only [List.filter_cons]
    by_cases hF : F s <;> by_cases hp : p s <;> simp [hF, hp] <;> omega

/-- Claim C1 counterexample: with caller options already carrying the
dependency marker `preRes` and a nonempty tier 1, the dependent tier is
created with `dependsOn` replaced by the tier-1 handles; the caller's
marker is not threaded through. -/
theorem dependsOn_replaced_counterexample :
    argsC1.options.dependsOn = some [preRes] ∧
    (restCreations argsC1).map Creation.opts =
      [{ provider := 7, dependsOn := some [nsResourceEx], other := 3 }] ∧
    preRes ∉ [nsResourceEx] := by decide

/-- Claim C1 (amended): every dependent-tier creation happens under the
caller's options with every non-dependency setting unchanged, and with
`dependsOn` replaced by the tier-1 handle list when tier 1 produced at
least one handle (discarding any caller-supplied markers); when tier 1
produced no handles the caller's options are used unmodified, original
dependency markers included. -/
theorem resourcesFromSpecs_dependent_options (args : ResourcesFromSpecsArgs)
    (c : Creation) (hc : c ∈ restCreations args) :
    c.opts.provider = args.options.provider ∧
    c.opts.other = args.options.other ∧
    (firstResources args = [] → c.opts.dependsOn = args.options.dependsOn) ∧
    (firstResources args ≠ [] → c.opts.dependsOn = some (firstResources args)) := by
  rw [restCreations_opts args c hc, restOptions_eq]
  by_cases h0 : firstResources args = []
  · simp [h0]
  · have hlen : 0 < (firstResources args).length := List.length_pos.mpr h0
    simp [h0, hlen]

/-- Claim C1 witness: the amended statement instantiated at the
namespace-plus-deployment example. -/
theorem resourcesFromSpecs_dependent_options_witness :
    depCreationEx.opts.provider = argsEx.options.provider ∧
    depCreationEx.opts.other = argsEx.options.other ∧
    (firstResources argsEx = [] → depCreationEx.opts.dependsOn = argsEx.options.dependsOn) ∧
    (firstResources argsEx ≠ [] → depCreationEx.opts.dependsOn = some (firstResources argsEx)) :=
  resourcesFromSpecs_dependent_options argsEx depCreationEx (by decide)

/-- Claim C2: `resourcesFromSpecs` partitions the original input by kind
before the transform runs — foundational exactly when the kind tag is
`CustomResourceDefinition` or `Namespace` — and returns the foundational
handles in original relative order followed by the dependent handles in
original relative order. -/
theorem resourcesFromSpecs_tiering (args : ResourcesFromSpecsArgs) :
    resourcesFromSpecs args =
      (args.specs.filter firstFilter).filterMap
        (fun s => (createSpecResource ((args.transform.getD (fun i => i)) s)
          args.options).map Creation.res)
      ++ (args.specs.filter (fun s => !(firstFilter s))).filterMap
        (fun s => (createSpecResource ((args.transform.getD (fun i => i)) s)
          (restOptions args)).map Creation.res) := by
  have hre : restFilter = fun s => !(firstFilter s) := funext restFilter_eq_not_firstFilter
  have h1 : resourcesFromSpecs args =
      (((args.specs.filter firstFilter).map (args.transform.getD (fun i => i))).filterMap
        (fun s => createSpecResource s args.options)).map Creation.res
      ++ (((args.specs.filter restFilter).map (args.transform.getD (fun i => i))).filterMap
        (fun s => createSpecResource s (restOptions args))).map Creation.res := rfl
  rw [h1, hre]
  simp only [List.filterMap_map, List.map_filterMap, Function.comp]

/-- Claim C3: a spec reaching dispatch materializes to exactly one handle
precisely when both `kind` and `metadata.name` are (truthily) present —
a kind outside the fixed mapping still produces a handle, through the
generic custom-resource fallback — and produces no handle and no error
otherwise. -/
theorem createSpecResource_exactly_one (s : K8sSpec) (o : Options) :
    ((createSpecResource s o).isSome = hasKindAndName s) ∧
    (∀ c : Creation, createSpecResource s o = some c →
      recognizedKind (specKind s) = false → c.res.ctor = ResourceCtor.customResource) := by
  refine ⟨createSpecResource_isSome s o, ?_⟩
  intro c hc hrec
  unfold createSpecResource at hc
  rcases s with _ | d
  · cases hn : specResourceName none with
    | none => simp [hn] at hc
    | some r => rw [show specResourceName none = none from rfl] at hn; cases hn
  · cases hn : specResourceName (some d) with
    | none => simp [hn] at hc
    | some r =>
      simp only [hn] at hc
      cases hc
      exact dispatchCtor_fallback d hrec

/-- Claim C3 witness: an unrecognized `Widget` spec with valid metadata
produces exactly one handle, via the generic fallback. -/
theorem createSpecResource_exactly_one_witness :
    ((createSpecResource widgetSpec o0).isSome = hasKindAndName widgetSpec) ∧
    widgetCreationEx.res.ctor = ResourceCtor.customResource :=
  ⟨(createSpecResource_exactly_one widgetSpec o0).1,
    (createSpecResource_exactly_one widgetSpec o0).2 widgetCreationEx (by decide) (by decide)⟩

/-- Claim C4 counterexample: with a transform that rewrites a spec lacking
`kind` and `metadata.name` into a complete spec, the run produces one
handle although no input spec had both fields present. -/
theorem handle_without_input_fields_counterexample :
    (resourcesFromSpecs argsC4).length = 1 ∧
    (argsC4.specs.filter hasKindAndName).length = 0 := by decide

/-- Claim C4 (amended): every output handle corresponds to exactly one
input spec whose transformed image has both `kind` and `metadata.name`
present — the count of output handles equals the count of such specs. -/
theorem resourcesFromSpecs_length (args : ResourcesFromSpecsArgs) :
    (resourcesFromSpecs args).length =
      (args.specs.filter
        (fun s => hasKindAndName ((args.transform.getD (fun i => i)) s))).length := by
  have h1 : resourcesFromSpecs args =
      (((args.specs.filter firstFilter).map (args.transform.getD (fun i => i))).filterMap
        (fun s => createSpecResource s args.options)).map Creation.res
      ++ (((args.specs.filter restFilter).map (args.transform.getD (fun i => i))).filterMap
        (fun s => createSpecResource s (restOptions args))).map Creation.res := rfl
  have hre : restFilter = fun s => !(firstFilter s) := funext restFilter_eq_not_firstFilter
  rw [h1, hre]
  simp only [List.length_append, List.length_map]
  rw [filterMap_create_length, filterMap_create_length]
  exact length_filter_partition _ firstFilter args.specs

/-- Claim C5: a spec the transform maps to the omission marker produces no
handle, and both the returned handle sequence and the dependency options
given to the dependent tier are those of the run without that spec. -/
theorem resourcesFromSpecs_omission (o : Options) (tr : K8sSpec → K8sSpec)
    (l1 l2 : List K8sSpec) (s : K8sSpec) (h : tr s = none) :
    resourcesFromSpecs ⟨o, l1 ++ s :: l2, some tr⟩ = resourcesFromSpecs ⟨o, l1 ++ l2, some tr⟩ ∧
    restOptions ⟨o, l1 ++ s :: l2, some tr⟩ = restOptions ⟨o, l1 ++ l2, some tr⟩ := by
  have hfil : ∀ (F : K8sSpec → Bool) (oo : Options),
      (((l1 ++ s :: l2).filter F).map tr).filterMap (fun x => createSpecResource x oo)
        = (((l1 ++ l2).filter F).map tr).filterMap (fun x => createSpecResource x oo) := by
    intro F oo
    cases hF : F s <;>
      simp [List.filter_append, List.filter_cons, hF, List.map_append, List.filterMap_append,
        List.map_cons, List.filterMap_cons, h, createSpecResource_none]
  constructor
  · unfold resourcesFromSpecs firstCreations restCreations resourcesFromSpecsPipeline
    dsimp only [Option.getD]
    rw [hfil firstFilter o, hfil restFilter]
  · unfold restOptions resourcesFromSpecsPipeline
    dsimp only [Option.getD]
    rw [hfil firstFilter o]

/-- Claim C5 witness: omitting the deployment spec by transform yields the
same handles and the same dependent-tier options as removing it from the
input. -/
theorem resourcesFromSpecs_omission_witness :
    resourcesFromSpecs ⟨o0, [nsSpec] ++ depSpec :: [], some trOmit⟩ =
      resourcesFromSpecs ⟨o0, [nsSpec] ++ [], some trOmit⟩ ∧
    restOptions ⟨o0, [nsSpec] ++ depSpec :: [], some trOmit⟩ =
      restOptions ⟨o0, [nsSpec] ++ [], some trOmit⟩ :=
  resourcesFromSpecs_omission o0 trOmit [nsSpec] [] depSpec (by decide)

/-- Claim C6: for a spec with truthy `kind` and `metadata.name`, the
derived identifier is the prefix `k8s`, the lower-cased kind, the
namespace exactly when the lower-cased kind is not `namespace` and the
spec carries a truthy namespace, and the name, joined by `/`; a
namespace-kind spec never receives a namespace segment even when one is
erroneously present. -/
theorem specResourceName_identifier_format (k n : String) (av : Option String)
    (hk : k ≠ "") (hn : n ≠ "") :
    (∀ v : String, strToLower k ≠ "namespace" → v ≠ "" →
        specResourceName (some ⟨some k, av, some ⟨some n, some v⟩⟩) =
          some ("k8s" ++ "/" ++ strToLower k ++ "/" ++ v ++ "/" ++ n)) ∧
    (∀ v : Option String, strToLower k = "namespace" ∨ v = some "" ∨ v = none →
        specResourceName (some ⟨some k, av, some ⟨some n, v⟩⟩) =
          some ("k8s" ++ "/" ++ strToLower k ++ "/" ++ n)) :=
  specResourceName_cases k n av hk hn

/-- Claim C6 witness: the deployment example gets the namespaced
identifier, and a `Namespace` spec erroneously carrying a namespace does
not get a namespace segment. -/
theorem specResourceName_identifier_format_witness :
    specResourceName depSpec =
      some ("k8s" ++ "/" ++ strToLower "Deployment" ++ "/" ++ "ns1" ++ "/" ++ "web") ∧
    specResourceName (some ⟨some "Namespace", some "v1", some ⟨some "ns1", some "bogus"⟩⟩) =
      some ("k8s" ++ "/" ++ strToLower "Namespace" ++ "/" ++ "ns1") :=
  ⟨(specResourceName_identifier_format "Deployment" "web" (some "apps/v1")
      (by decide) (by decide)).1 "ns1" (by decide) (by decide),
    (specResourceName_identifier_format "Namespace" "ns1" (some "v1")
      (by decide) (by decide)).2 (some "bogus") (Or.inl (by decide))⟩

/-- Claim C7 counterexample: the namespace values `""` and absent are
distinct, yet a non-namespace-kind spec derives the same identifier for
both — both are falsy, so the segment is omitted in each case. -/
theorem namespace_empty_vs_absent_counterexample :
    (some "" : Option String) ≠ (none : Option String) ∧
    specResourceName (some ⟨some "Deployment", none, some ⟨some "web", some ""⟩⟩) =
      specResourceName (some ⟨some "Deployment", none, some ⟨some "web", none⟩⟩) := by
  decide

/-- Claim C7 (amended): for a non-namespace kind with truthy `kind` and
`metadata.name`, two distinct namespace values of which at least one is
truthy derive distinct identifiers. -/
theorem specResourceName_namespace_inj (k n : String) (av : Option String)
    (ns₁ ns₂ : Option String)
    (hk : k ≠ "") (hn : n ≠ "") (hkn : strToLower k ≠ "namespace")
    (hne : ns₁ ≠ ns₂) (htr : strTruthy ns₁ = true ∨ strTruthy ns₂ = true) :
    specResourceName (some ⟨some k, av, some ⟨some n, ns₁⟩⟩) ≠
      specResourceName (some ⟨some k, av, some ⟨some n, ns₂⟩⟩) := by
  have hfmt := specResourceName_cases k n av hk hn
  rcases ns₁ with _ | v₁ <;> rcases ns₂ with _ | v₂
  · exact absurd rfl hne
  · have hv₂ : v₂ ≠ "" := by
      rcases htr with h | h
      · simp [strTruthy] at h
      · simpa [strTruthy] using h
    rw [hfmt.2 none (Or.inr (Or.inr rfl)), hfmt.1 v₂ hkn hv₂]
    intro h
    exact long_ne_short (strToLower k) v₂ n hv₂ (Option.some.inj h).symm
  · have hv₁ : v₁ ≠ "" := by
      rcases htr with h | h
      · simpa [strTruthy] using h
      · simp [strTruthy] at h
    rw [hfmt.1 v₁ hkn hv₁, hfmt.2 none (Or.inr (Or.inr rfl))]
    intro h
    exact long_ne_short (strToLower k) v₁ n hv₁ (Option.some.inj h)
  · by_cases hv₁ : v₁ = ""
    · subst hv₁
      have hv₂ : v₂ ≠ "" := by
        rcases htr with h | h
        · simp [strTruthy] at h
        · simpa [strTruthy] using h
      rw [hfmt.2 (some "") (Or.inr (Or.inl rfl)), hfmt.1 v₂ hkn hv₂]
      intro h
      exact long_ne_short (strToLower k) v₂ n hv₂ (Option.some.inj h).symm
    · by_cases hv₂ : v₂ = ""
      · subst hv₂
        rw [hfmt.1 v₁ hkn hv₁, hfmt.2 (some "") (Or.inr (Or.inl rfl))]
        intro h
        exact long_ne_short (strToLower k) v₁ n hv₁ (Option.some.inj h)
      · rw [hfmt.1 v₁ hkn hv₁, hfmt.1 v₂ hkn hv₂]
        intro h
        have hv := long_inj (strToLower k) v₁ v₂ n (Option.some.inj h)
        exact hne (by rw [hv])

/-- Claim C7 witness: namespaces `a` and `b` on the deployment example
derive distinct identifiers. -/
theorem specResourceName_namespace_inj_witness :
    specResourceName (some ⟨some "Deployment", none, some ⟨some "web", some "a"⟩⟩) ≠
      specResourceName (some ⟨some "Deployment", none, some ⟨some "web", some "b"⟩⟩) :=
  specResourceName_namespace_inj "Deployment" "web" none (some "a") (some "b")
    (by decide) (by decide) (by decide) (by decide) (Or.inl (by decide))

set_option maxHeartbeats 800000 in
/-- Claim C8: for the kinds `MutatingWebhookConfiguration`,
`ValidatingWebhookConfiguration` and `CustomResourceDefinition`, dispatch
picks the v1beta1 revision exactly when `apiVersion` equals the matching
v1beta1 string and the v1 revision for every other value; for any other
kind, changing `apiVersion` never changes the chosen constructor. -/
theorem dispatchCtor_apiVersion (d : K8sSpecData) (v v' : Option String) :
    (d.kind = some "MutatingWebhookConfiguration" →
      dispatchCtor d = (if d.apiVersion = some "admissionregistration.k8s.io/v1beta1" then
        ResourceCtor.admissionregMutatingV1beta1 else ResourceCtor.admissionregMutatingV1)) ∧
    (d.kind = some "ValidatingWebhookConfiguration" →
      dispatchCtor d = (if d.apiVersion = some "admissionregistration.k8s.io/v1beta1" then
        ResourceCtor.admissionregValidatingV1beta1 else ResourceCtor.admissionregValidatingV1)) ∧
    (d.kind = some "CustomResourceDefinition" →
      dispatchCtor d = (if d.apiVersion = some "apiextensions.k8s.io/v1beta1" then
        ResourceCtor.apiextensionsCRDV1beta1 else ResourceCtor.apiextensionsCRDV1)) ∧
    (d.kind ≠ some "MutatingWebhookConfiguration" →
      d.kind ≠ some "ValidatingWebhookConfiguration" →
      d.kind ≠ some "CustomResourceDefinition" →
      dispatchCtor { d with apiVersion := v } = dispatchCtor { d with apiVersion := v' }) := by
  refine ⟨?_, ?_, ?_, ?_⟩
  · intro hkind
    simp [dispatchCtor, hkind]
  · intro hkind
    simp [dispatchCtor, hkind]
  · intro hkind
    simp [dispatchCtor, hkind]
  · intro h1 h2 h3
    show dispatchCtor ⟨d.kind, v, d.metadata⟩ = dispatchCtor ⟨d.kind, v', d.metadata⟩
    generalize d.kind = K at h1 h2 h3 ⊢
    unfold dispatchCtor
    dsimp only
    by_cases hc0 : K = some "ConfigMap"
    · simp only [if_pos hc0]
    simp only [if_neg hc0]
    by_cases hc1 : K = some "Namespace"
    · simp only [if_pos hc1]
    simp only [if_neg hc1]
    by_cases hc2 : K = some "Secret"
    · simp only [if_pos hc2]
    simp only [if_neg hc2]
    by_cases hc3 : K = some "Service"
    · simp only [if_pos hc3]
    simp only [if_neg hc3]
    by_cases hc4 : K = some "ServiceAccount"
    · simp only [if_pos hc4]
    simp only [if_neg hc4]
    by_cases hc5 : K = some "DaemonSet"
    · simp only [if_pos hc5]
    simp only [if_neg hc5]
    by_cases hc6 : K = some "Deployment"
    · simp only [if_pos hc6]
    simp only [if_neg hc6]
    by_cases hc7 : K = some "StatefulSet"
    · simp only [if_pos hc7]
    simp only [if_neg hc7]
    by_cases hc8 : K = some "Job"
    · simp only [if_pos hc8]
    simp only [if_neg hc8]
    by_cases hc9 : K = some "CronJob"
    · simp only [if_pos hc9]
    simp only [if_neg hc9]
    by_cases hc10 : K = some "PodDisruptionBudget"
    · simp only [if_pos hc10]
    simp only [if_neg hc10]
    by_cases hc11 : K = some "PodSecurityPolicy"
    · simp only [if_pos hc11]
    simp only [if_neg hc11]
    by_cases hc12 : K = some "NetworkPolicy"
    · simp only [if_pos hc12]
    simp only [if_neg hc12]
    by_cases hc13 : K = some "Ingress"
    · simp only [if_pos hc13]
    simp only [if_neg hc13]
    by_cases hc14 : K = some "ClusterRole"
    · simp only [if_pos hc14]
    simp only [if_neg hc14]
    by_cases hc15 : K = some "ClusterRoleBinding"
    · simp only [if_pos hc15]
    simp only [if_neg hc15]
    by_cases hc16 : K = some "Role"
    · simp only [if_pos hc16]
    simp only [if_neg hc16]
    by_cases hc17 : K = some "RoleBinding"
    · simp only [if_pos hc17]
    simp only [if_neg hc17]
    simp only [if_neg h1, if_neg h2, if_neg h3]

/-- Claim C8 witness: the v1beta1 mutating webhook picks the v1beta1
constructor, and a ConfigMap dispatches identically under two different
apiVersion values. -/
theorem dispatchCtor_apiVersion_witness :
    dispatchCtor mutSpecData =
      (if mutSpecData.apiVersion = some "admissionregistration.k8s.io/v1beta1" then
        ResourceCtor.admissionregMutatingV1beta1 else ResourceCtor.admissionregMutatingV1) ∧
    dispatchCtor { cmSpecData with apiVersion := some "v1" } =
      dispatchCtor { cmSpecData with apiVersion := some "v2" } :=
  ⟨(dispatchCtor_apiVersion mutSpecData none none).1 (by decide),
    (dispatchCtor_apiVersion cmSpecData (some "v1") (some "v2")).2.2.2
      (by decide) (by decide) (by decide)⟩

/-- Claim C9: a spec whose kind lower-cases to `namespace` but is not
exactly `Namespace` fails the case-sensitive foundational filter and
passes the dependent filter, yet its derived identifier still omits the
namespace segment, because identifier derivation compares the lower-cased
kind. -/
theorem lowercase_namespace_kind (k n : String) (av ns : Option String)
    (hlow : strToLower k = "namespace") (hK : k ≠ "Namespace") (hn : n ≠ "") :
    firstFilter (some ⟨some k, av, some ⟨some n, ns⟩⟩) = false ∧
    restFilter (some ⟨some k, av, some ⟨some n, ns⟩⟩) = true ∧
    specResourceName (some ⟨some k, av, some ⟨some n, ns⟩⟩) =
      some ("k8s" ++ "/" ++ "namespace" ++ "/" ++ n) := by
  have hk : k ≠ "" := by
    intro h
    subst h
    exact absurd hlow (by decide)
  have hcrd : k ≠ "CustomResourceDefinition" := by
    intro h
    subst h
    exact absurd hlow (by decide)
  refine ⟨?_, ?_, ?_⟩
  · simp [firstFilter, specKind, hK, hcrd]
  · simp [restFilter, specKind, hK, hcrd]
  · have hfmt := (specResourceName_cases k n av hk hn).2 ns (Or.inl hlow)
    rw [hfmt, hlow]

/-- Claim C9 witness: kind `namespace` (all lower case) with a namespace
set is routed to the dependent tier while its identifier has no namespace
segment. -/
theorem lowercase_namespace_kind_witness :
    firstFilter (some ⟨some "namespace", some "v1", some ⟨some "n", some "x"⟩⟩) = false ∧
    restFilter (some ⟨some "namespace", some "v1", some ⟨some "n", some "x"⟩⟩) = true ∧
    specResourceName (some ⟨some "namespace", some "v1", some ⟨some "n", some "x"⟩⟩) =
      some ("k8s" ++ "/" ++ "namespace" ++ "/" ++ "n") :=
  lowercase_namespace_kind "namespace" "n" (some "v1") (some "x")
    (by decide) (by decide) (by decide)

/-- Claim C10: the caller's options value is passed to every tier-1
creation exactly as given, and the tier-2 options agree with the caller's
on every setting other than `dependsOn` — the dependency is set on a
copy, never on the caller's value. -/
theorem resourcesFromSpecs_options_frame (args : ResourcesFromSpecsArgs) :
    (∀ c ∈ firstCreations args, c.opts = args.options) ∧
    (restOptions args).provider = args.options.provider ∧
    (restOptions args).other = args.options.other := by
  refine ⟨fun c hc => firstCreations_opts args c hc, ?_, ?_⟩ <;>
    rw [restOptions_eq] <;> by_cases h0 : 0 < (firstResources args).length <;> simp [h0]

/-- Claim C10 witness: in the namespace-plus-deployment example, the
tier-1 creation runs under the caller's options and the tier-2 options
keep the caller's provider and other settings. -/
theorem resourcesFromSpecs_options_frame_witness :
    nsCreationEx.opts = argsEx.options ∧
    (restOptions argsEx).provider = argsEx.options.provider ∧
    (restOptions argsEx).other = argsEx.options.other :=
  ⟨(resourcesFromSpecs_options_frame argsEx).1 nsCreationEx (by decide),
    (resourcesFromSpecs_options_frame argsEx).2.1,
    (resourcesFromSpecs_options_frame argsEx).2.2⟩

end IacGke
